import Mathlib

/-!
Verification of the moraki frontend page controller and renderer.

The embedding below follows the canonical page component (the later variant
with `place_score`/`confidence`): the `AnalyzeResponse` shape, the pure
presentation helpers `badgeByLabel` and `confidenceInfo`, the `onAnalyze`
submit operation (modelled as a trace of state-updating actions together
with the fetch outcome supplied by the environment), and the pure rendering
of the breakdown list, the radar section and the optional score fields.
-/

namespace Moraki

/-- JS string truthiness fallback: `a || b` for strings, where `""` is falsy. -/
def jsOr (a b : String) : String := if a = "" then b else a

/-- Whitespace trimming as used by `query.trim()`. -/
def jsTrim (s : String) : String :=
  ⟨((s.data.dropWhile Char.isWhitespace).reverse.dropWhile Char.isWhitespace).reverse⟩

/-- Character-wise lowercasing, modelling `label.toLowerCase()` on the
labels this page handles. -/
def toLowerStr (s : String) : String := ⟨s.data.map Char.toLower⟩

/-- Does the character list start with the given pattern? -/
def leadsWith : List Char → List Char → Bool
  | [], _ => true
  | _ :: _, [] => false
  | p :: ps, c :: cs => p == c && leadsWith ps cs

/-- Does the pattern occur as a contiguous run in the list?  Models
`String.prototype.includes`. -/
def occursIn (pat : List Char) : List Char → Bool
  | [] => pat.isEmpty
  | c :: cs => leadsWith pat (c :: cs) || occursIn pat cs

/-- `hay.includes(pat)` on strings. -/
def includesSub (hay pat : String) : Bool := occursIn pat.data hay.data

/-- Impact tag of a radar item: `"positive" | "monitor" | "risk"`. -/
inductive Impact where
  | positive
  | monitor
  | risk
deriving DecidableEq, Repr

/-- One entry of the `radar` sequence. -/
structure RadarItem where
  impact : Impact
  title : String
  date : Option String
  why_it_matters : String
  source : Option String
deriving DecidableEq, Repr

/-- The `score` object of an `AnalyzeResponse`.  `breakdown` is a
`Record<string, number>`; JS records preserve string-key insertion order, so
it is embedded as an association list in that order.  The unused open
mapping `meta?` carries no observable data and is not embedded. -/
structure Score where
  total : Int
  label : String
  breakdown : List (String × Int)
  place_score : Option Int
  confidence : Option Int
deriving DecidableEq, Repr

/-- The response body of `POST /v1/analyze`. -/
structure AnalyzeResponse where
  request_id : String
  input_query : String
  input_city : String
  score : Score
  summary : String
  positives : List String
  cautions : List String
  risks : List String
  radar : List RadarItem
  generated_at : String
deriving DecidableEq, Repr

/-- A badge / tier descriptor: `{ text, color }`. -/
structure BadgeInfo where
  text : String
  color : String
deriving DecidableEq, Repr

/-- `badgeByLabel(label?, fallbackScore?)`: case-insensitive substring match
on the label, with a score-threshold fallback in the second branch. -/
def badgeByLabel (label : Option String) (fallbackScore : Option Int) : BadgeInfo :=
  let l := toLowerStr (label.getD "")
  if includesSub l "boa decisão" && !includesSub l "atenção" then
    ⟨"Boa decisão", "#0f766e"⟩
  else if includesSub l "atenção" ||
      (match fallbackScore with | some n => decide (n ≥ 65) | none => false) then
    ⟨"Boa decisão, com atenção", "#a16207"⟩
  else if includesSub l "neutro" then
    ⟨"Neutro (precisa de mais dados)", "#64748b"⟩
  else
    ⟨"Não recomendado", "#b91c1c"⟩

/-- `confidenceInfo(conf?)`: the confidence tier descriptor. -/
def confidenceInfo (conf : Option Int) : BadgeInfo :=
  match conf with
  | none => ⟨"—", "#64748b"⟩
  | some c =>
    if c ≥ 75 then ⟨"Alta", "#0f766e"⟩
    else if c ≥ 50 then ⟨"Média", "#a16207"⟩
    else ⟨"Baixa", "#b91c1c"⟩

/-- Rendering of an optional numeric score slot:
`typeof x === "number" ? x : "—"` (used for `place_score` and
`confidence`). -/
def optScoreText (o : Option Int) : String :=
  match o with
  | some n => toString n
  | none => "—"

/-- The component-local state of the page controller (the `query` input is
passed to the submit operation separately). -/
structure PageState where
  loading : Bool
  data : Option AnalyzeResponse
  error : Option String
deriving DecidableEq, Repr

instance {α β : Type} [DecidableEq α] [DecidableEq β] : DecidableEq (Except α β) := fun a b =>
  match a, b with
  | .error x, .error y =>
    if h : x = y then .isTrue (by rw [h]) else .isFalse (by intro he; cases he; exact h rfl)
  | .ok x, .ok y =>
    if h : x = y then .isTrue (by rw [h]) else .isFalse (by intro he; cases he; exact h rfl)
  | .error _, .ok _ => .isFalse (by intro h; cases h)
  | .ok _, .error _ => .isFalse (by intro h; cases h)

/-- Outcome of the `fetch` round trip as seen by `onAnalyze`: either the
promise rejects (network failure, message of the thrown error), or a
response arrives with its `ok` flag, `status`, body text, and the result of
parsing the body as JSON. -/
inductive FetchOutcome where
  | netError (message : String)
  | response (ok : Bool) (status : Nat) (bodyText : String)
      (parsed : Except String AnalyzeResponse)
deriving DecidableEq, Repr

/-- One observable step of `onAnalyze`: a state-setter call, or the issuing
of the network request. -/
inductive Action where
  | setError (e : Option String)
  | setData (d : Option AnalyzeResponse)
  | setLoading (b : Bool)
  | fetchIssued
deriving DecidableEq, Repr

/-- Does this action write the `loading` flag? -/
def Action.isSetLoading : Action → Bool
  | .setLoading _ => true
  | _ => false

/-- Is this action the issuing of the network request? -/
def Action.isFetch : Action → Bool
  | .fetchIssued => true
  | _ => false

/-- The sequence of observable steps performed by one `onAnalyze()`
invocation, given the query value and the fetch outcome the environment
would supply.  Mirrors the source line by line: clear error and data, trim,
validate, set loading, fetch, then either store the parsed body or store an
error message built by the catch handler, and finally clear loading. -/
def onAnalyzeTrace (query : String) (f : FetchOutcome) : List Action :=
  let q := jsTrim query
  if q = "" then
    [.setError none, .setData none,
     .setError (some "Cole um endereço ou link do anúncio.")]
  else
    [.setError none, .setData none, .setLoading true, .fetchIssued] ++
    (match f with
     | .netError m => [.setError (some (jsOr m "Erro ao analisar."))]
     | .response ok status bodyText parsed =>
       if ok then
         match parsed with
         | .ok j => [.setData (some j)]
         | .error m => [.setError (some (jsOr m "Erro ao analisar."))]
       else
         [.setError (some (jsOr (jsOr bodyText ("Erro HTTP " ++ toString status))
           "Erro ao analisar."))]) ++
    [.setLoading false]

/-- Effect of one action on the controller state. -/
def applyAction (s : PageState) : Action → PageState
  | .setError e => { s with error := e }
  | .setData d => { s with data := d }
  | .setLoading b => { s with loading := b }
  | .fetchIssued => s

/-- The controller state after a completed `onAnalyze()` invocation. -/
def runState (s : PageState) (query : String) (f : FetchOutcome) : PageState :=
  (onAnalyzeTrace query f).foldl applyAction s

/-- Whether the invocation issued a network request. -/
def networkCalled (query : String) (f : FetchOutcome) : Bool :=
  (onAnalyzeTrace query f).any Action.isFetch

/-- Glyph shown before a radar item title. -/
def impactGlyph : Impact → String
  | .risk => "🔴"
  | .monitor => "🟡"
  | .positive => "🟢"

/-- The lines rendered for one radar item: glyph and title, then the date
only when present, the why-it-matters text, and the source attribution only
when present. -/
def renderRadarItem (n : RadarItem) : List String :=
  [impactGlyph n.impact ++ " " ++ n.title] ++
  (match n.date with | some d => [d] | none => []) ++
  [n.why_it_matters] ++
  (match n.source with | some s => ["Fonte: " ++ s] | none => [])

/-- The radar card body: a fixed message, or a container of rendered items. -/
inductive RadarSection where
  | emptyMsg (text : String)
  | items (rendered : List (List String))
deriving DecidableEq, Repr

/-- `data.radar.length === 0 ? <fixed message> : <list of items>`. -/
def renderRadar (radar : List RadarItem) : RadarSection :=
  if radar.length = 0 then .emptyMsg "Nenhum item relevante encontrado."
  else .items (radar.map renderRadarItem)

/-- The breakdown card body:
`Object.entries(breakdown).map(([k, v]) => k + ": " + v + " pts")`. -/
def renderBreakdown (bd : List (String × Int)) : List String :=
  bd.map (fun kv => kv.1 ++ ": " ++ toString kv.2 ++ " pts")

/-- A concrete well-formed response used to instantiate hypotheses. -/
def sampleResponse : AnalyzeResponse :=
  { request_id := "req-1"
    input_query := "Rua A, 100"
    input_city := "São Paulo"
    score :=
      { total := 72
        label := "Boa decisão, com atenção"
        breakdown := [("preço", 30), ("segurança", 22)]
        place_score := some 70
        confidence := some 60 }
    summary := "Resumo."
    positives := ["metrô perto"]
    cautions := []
    risks := []
    radar := []
    generated_at := "2025-01-01T00:00:00Z" }

lemma jsOr_ne_empty (a b : String) (hb : b ≠ "") : jsOr a b ≠ "" := by
  unfold jsOr
  split
  · exact hb
  · next h => exact h

lemma leadsWith_self (l : List Char) : leadsWith l l = true := by
  induction l with
  | nil => rfl
  | cons c cs ih => simp [leadsWith, ih]

lemma occursIn_append_self (pre pat : List Char) : occursIn pat (pre ++ pat) = true := by
  induction pre with
  | nil =>
    cases pat with
    | nil => rfl
    | cons c cs => simp [occursIn, leadsWith_self]
  | cons x xs ih => simp [occursIn, ih]

lemma includesSub_append_self (a b : String) : includesSub (a ++ b) b = true := by
  simp [includesSub, String.data_append, occursIn_append_self]

end Moraki

namespace Moraki

/-- Claim C1 (corrected): the badge is a pure function of the label
(case-insensitive substring match) with the total as fallback threshold;
label "Boa decisão, com atenção" yields the amber badge for every total,
while an empty label yields the amber badge at total 80 (the spec's teal
expectation contradicts the `total ≥ 65` fallback) and the red
"Não recomendado" badge at total 40. -/
theorem badge_label_and_fallback_cases (total : Int) :
    badgeByLabel (some "Boa decisão, com atenção") (some total) =
      ⟨"Boa decisão, com atenção", "#a16207"⟩ ∧
    badgeByLabel (some "") (some 80) = ⟨"Boa decisão, com atenção", "#a16207"⟩ ∧
    badgeByLabel (some "") (some 40) = ⟨"Não recomendado", "#b91c1c"⟩ := by
  refine ⟨?_, by decide, by decide⟩
  have h2 : includesSub (toLowerStr "Boa decisão, com atenção") "atenção" = true := by decide
  simp [badgeByLabel, h2]

theorem badge_label_and_fallback_cases_witness :
    badgeByLabel (some "Boa decisão, com atenção") (some 72) =
      ⟨"Boa decisão, com atenção", "#a16207"⟩ ∧
    badgeByLabel (some "") (some 80) = ⟨"Boa decisão, com atenção", "#a16207"⟩ ∧
    badgeByLabel (some "") (some 40) = ⟨"Não recomendado", "#b91c1c"⟩ :=
  badge_label_and_fallback_cases 72

/-- Claim C1 counterexample: an empty label with total 80 yields the amber
"Boa decisão, com atenção" badge, not the teal "Boa decisão" badge the
claim asserts. -/
theorem badge_empty_label_80_not_teal :
    badgeByLabel (some "") (some 80) = ⟨"Boa decisão, com atenção", "#a16207"⟩ ∧
    badgeByLabel (some "") (some 80) ≠ ⟨"Boa decisão", "#0f766e"⟩ := by decide

/-- Claim C2: a query that trims to empty performs no network call and sets
the fixed validation message as the error. -/
theorem submit_empty_query (s : PageState) (q : String) (f : FetchOutcome)
    (h : jsTrim q = "") :
    networkCalled q f = false ∧
    (runState s q f).error = some "Cole um endereço ou link do anúncio." := by
  simp [networkCalled, runState, onAnalyzeTrace, h, applyAction, Action.isFetch]

theorem submit_empty_query_witness :
    jsTrim "   " = "" ∧
    (networkCalled "   " (.netError "x") = false ∧
     (runState ⟨false, none, none⟩ "   " (.netError "x")).error =
       some "Cole um endereço ou link do anúncio.") :=
  ⟨by decide, submit_empty_query ⟨false, none, none⟩ "   " (.netError "x") (by decide)⟩

/-- Claim C3: on a non-2xx response the stored error is the body text
verbatim when non-empty, otherwise the generic "Erro HTTP <status>" message,
which contains the status code; `data` stays absent. -/
theorem submit_http_error (s : PageState) (q : String) (status : Nat)
    (body : String) (p : Except String AnalyzeResponse) (h : jsTrim q ≠ "") :
    (runState s q (.response false status body p)).error =
      some (if body = "" then "Erro HTTP " ++ toString status else body) ∧
    (runState s q (.response false status body p)).data = none ∧
    includesSub ("Erro HTTP " ++ toString status) (toString status) = true := by
  refine ⟨?_, ?_, includesSub_append_self "Erro HTTP " (toString status)⟩
  · simp only [runState, onAnalyzeTrace, h, if_neg, ite_false]
    by_cases hb : body = ""
    · simp [hb, jsOr, applyAction, jsOr_ne_empty]
      intro hc
      exact absurd (congrArg String.data hc) (by simp [String.data_append])
    · simp [hb, jsOr, applyAction]
  · simp [runState, onAnalyzeTrace, h, applyAction]

theorem submit_http_error_witness :
    jsTrim "Rua A" ≠ "" ∧
    ((runState ⟨false, none, none⟩ "Rua A" (.response false 500 "" (.error "x"))).error =
       some (if ("" : String) = "" then "Erro HTTP " ++ toString 500 else "") ∧
     (runState ⟨false, none, none⟩ "Rua A" (.response false 500 "" (.error "x"))).data = none ∧
     includesSub ("Erro HTTP " ++ toString 500) (toString 500) = true) :=
  ⟨by decide,
   submit_http_error ⟨false, none, none⟩ "Rua A" 500 "" (.error "x") (by decide)⟩

/-- Claim C4: a non-empty query together with an ok response whose body
parses as an AnalyzeResponse stores exactly that response in `data`, leaves
`error` absent, and issues the network call. -/
theorem submit_success (s : PageState) (q : String) (status : Nat) (body : String)
    (j : AnalyzeResponse) (h : jsTrim q ≠ "") :
    runState s q (.response true status body (.ok j)) =
      ⟨false, some j, none⟩ ∧
    networkCalled q (.response true status body (.ok j)) = true := by
  constructor
  · simp [runState, onAnalyzeTrace, h, applyAction]
  · simp [networkCalled, onAnalyzeTrace, h, Action.isFetch]

theorem submit_success_witness :
    jsTrim "Rua A, 100" ≠ "" ∧
    (runState ⟨false, none, some "velho"⟩ "Rua A, 100"
        (.response true 200 "{}" (.ok sampleResponse)) =
      ⟨false, some sampleResponse, none⟩ ∧
     networkCalled "Rua A, 100" (.response true 200 "{}" (.ok sampleResponse)) = true) :=
  ⟨by decide,
   submit_success ⟨false, none, some "velho"⟩ "Rua A, 100" 200 "{}" sampleResponse (by decide)⟩

/-- Claim C5: a submission failing validation never writes the loading
flag; a submission passing validation sets loading to true immediately
before issuing the network call, writes loading nowhere else, and setting
loading to false is the terminal step on every path. -/
theorem loading_interval (q : String) (f : FetchOutcome) :
    (jsTrim q = "" → ∀ a ∈ onAnalyzeTrace q f, a.isSetLoading = false) ∧
    (jsTrim q ≠ "" → ∃ mid,
      onAnalyzeTrace q f =
        [.setError none, .setData none, .setLoading true, .fetchIssued] ++
          mid ++ [.setLoading false] ∧
      ∀ a ∈ mid, a.isSetLoading = false) := by
  constructor
  · intro h a ha
    simp [onAnalyzeTrace, h] at ha
    rcases ha with rfl | rfl | rfl <;> rfl
  · intro h
    cases f with
    | netError m =>
      exact ⟨[.setError (some (jsOr m "Erro ao analisar."))],
        by simp [onAnalyzeTrace, h], by simp [Action.isSetLoading]⟩
    | response ok status bodyText parsed =>
      cases ok with
      | false =>
        exact ⟨[.setError (some (jsOr (jsOr bodyText ("Erro HTTP " ++ toString status))
            "Erro ao analisar."))],
          by simp [onAnalyzeTrace, h], by simp [Action.isSetLoading]⟩
      | true =>
        cases parsed with
        | ok j =>
          exact ⟨[.setData (some j)],
            by simp [onAnalyzeTrace, h], by simp [Action.isSetLoading]⟩
        | error m =>
          exact ⟨[.setError (some (jsOr m "Erro ao analisar."))],
            by simp [onAnalyzeTrace, h], by simp [Action.isSetLoading]⟩

theorem loading_interval_witness :
    (jsTrim "  " = "" ∧
      ∀ a ∈ onAnalyzeTrace "  " (.netError "boom"), a.isSetLoading = false) ∧
    (jsTrim "Rua B" ≠ "" ∧ ∃ mid,
      onAnalyzeTrace "Rua B" (.netError "boom") =
        [.setError none, .setData none, .setLoading true, .fetchIssued] ++
          mid ++ [.setLoading false] ∧
      ∀ a ∈ mid, a.isSetLoading = false) :=
  ⟨⟨by decide, (loading_interval "  " (.netError "boom")).1 (by decide)⟩,
   ⟨by decide, (loading_interval "Rua B" (.netError "boom")).2 (by decide)⟩⟩

/-- Claim C6 (corrected): the optional score fields `place_score` and
`confidence` render the placeholder "—" when absent, but a radar item's
optional date and source are omitted from the rendering entirely when
absent, not replaced by a placeholder. -/
theorem optional_fields_rendering :
    optScoreText none = "—" ∧ (confidenceInfo none).text = "—" ∧
    ∀ n : RadarItem, n.date = none → n.source = none →
      renderRadarItem n = [impactGlyph n.impact ++ " " ++ n.title, n.why_it_matters] := by
  refine ⟨rfl, rfl, ?_⟩
  intro n hd hs
  simp [renderRadarItem, hd, hs]

theorem optional_fields_rendering_witness :
    (⟨Impact.positive, "Obra nova", none, "Valoriza o entorno", none⟩ : RadarItem).date
        = none ∧
    renderRadarItem ⟨Impact.positive, "Obra nova", none, "Valoriza o entorno", none⟩ =
      [impactGlyph Impact.positive ++ " " ++ "Obra nova", "Valoriza o entorno"] :=
  ⟨rfl, optional_fields_rendering.2.2
    ⟨Impact.positive, "Obra nova", none, "Valoriza o entorno", none⟩ rfl rfl⟩

/-- Claim C6 counterexample: a radar item with no date and no source
renders only its title line and why-it-matters line; no "—" placeholder
appears anywhere in its rendering. -/
theorem radar_optional_no_dash :
    renderRadarItem ⟨Impact.monitor, "Evento", none, "Contexto", none⟩ =
      ["🟡 Evento", "Contexto"] ∧
    "—" ∉ renderRadarItem ⟨Impact.monitor, "Evento", none, "Contexto", none⟩ := by
  decide

/-- Claim C7: the breakdown section renders one entry per key, in the
association list's order, each formatted as "<category>: <value> pts". -/
theorem breakdown_rendering (bd : List (String × Int)) :
    (renderBreakdown bd).length = bd.length ∧
    ∀ (i : Nat) (k : String) (v : Int), bd[i]? = some (k, v) →
      (renderBreakdown bd)[i]? = some (k ++ ": " ++ toString v ++ " pts") := by
  constructor
  · simp [renderBreakdown]
  · intro i k v h
    simp [renderBreakdown, List.getElem?_map, h]

theorem breakdown_rendering_witness :
    ([("preço", 30), ("segurança", 22)] : List (String × Int))[0]? =
      some ("preço", 30) ∧
    (renderBreakdown [("preço", 30), ("segurança", 22)])[0]? =
      some ("preço" ++ ": " ++ toString (30 : Int) ++ " pts") :=
  ⟨by decide, (breakdown_rendering [("preço", 30), ("segurança", 22)]).2 0 "preço" 30
    (by decide)⟩

/-- Claim C8: an empty radar sequence renders exactly the fixed
"Nenhum item relevante encontrado." message, and the radar section is never
an empty items container. -/
theorem radar_empty_rendering :
    renderRadar [] = .emptyMsg "Nenhum item relevante encontrado." ∧
    ∀ rs : List RadarItem, renderRadar rs ≠ .items [] := by
  refine ⟨rfl, ?_⟩
  intro rs
  cases rs with
  | nil => simp [renderRadar]
  | cons x xs => simp [renderRadar]

theorem radar_empty_rendering_witness :
    renderRadar [] = .emptyMsg "Nenhum item relevante encontrado." ∧
    renderRadar [] ≠ .items [] :=
  ⟨radar_empty_rendering.1, radar_empty_rendering.2 []⟩

/-- Claim C9: invoking submit with a query that trims to empty clears the
previously stored data and error before validation, so the final state has
no data, the fixed validation message as error, loading still false, and no
network call was made. -/
theorem submit_empty_clears_previous (s : PageState) (q : String) (f : FetchOutcome)
    (hl : s.loading = false) (h : jsTrim q = "") :
    runState s q f = ⟨false, none, some "Cole um endereço ou link do anúncio."⟩ ∧
    networkCalled q f = false := by
  obtain ⟨l, d, e⟩ := s
  simp only at hl
  subst hl
  simp [runState, networkCalled, onAnalyzeTrace, h, applyAction, Action.isFetch]

theorem submit_empty_clears_previous_witness :
    (⟨false, some sampleResponse, some "velho"⟩ : PageState).loading = false ∧
    jsTrim " " = "" ∧
    (runState ⟨false, some sampleResponse, some "velho"⟩ " " (.netError "x") =
      ⟨false, none, some "Cole um endereço ou link do anúncio."⟩ ∧
     networkCalled " " (.netError "x") = false) :=
  ⟨rfl, by decide,
   submit_empty_clears_previous ⟨false, some sampleResponse, some "velho"⟩ " "
     (.netError "x") rfl (by decide)⟩

/-- Claim C10: whenever a completed submit invocation leaves an error set,
that error is a non-empty string: the validation message is a non-empty
constant, the non-2xx branch falls back to "Erro HTTP <status>" on an empty
body, and the catch handler falls back to "Erro ao analisar." on an empty
thrown message. -/
theorem error_nonempty (s : PageState) (q : String) (f : FetchOutcome) (m : String)
    (h : (runState s q f).error = some m) : m ≠ "" := by
  by_cases hq : jsTrim q = ""
  · simp [runState, onAnalyzeTrace, hq, applyAction] at h
    subst h
    decide
  · cases f with
    | netError msg =>
      simp [runState, onAnalyzeTrace, hq, applyAction] at h
      subst h
      exact jsOr_ne_empty msg "Erro ao analisar." (by decide)
    | response ok status bodyText parsed =>
      cases ok with
      | false =>
        simp [runState, onAnalyzeTrace, hq, applyAction] at h
        subst h
        exact jsOr_ne_empty _ "Erro ao analisar." (by decide)
      | true =>
        cases parsed with
        | ok j =>
          simp [runState, onAnalyzeTrace, hq, applyAction] at h
        | error msg =>
          simp [runState, onAnalyzeTrace, hq, applyAction] at h
          subst h
          exact jsOr_ne_empty msg "Erro ao analisar." (by decide)

theorem error_nonempty_witness :
    (runState ⟨false, none, none⟩ "Rua C" (.netError "")).error =
      some "Erro ao analisar." ∧
    "Erro ao analisar." ≠ "" :=
  ⟨by decide,
   error_nonempty ⟨false, none, none⟩ "Rua C" (.netError "") "Erro ao analisar."
     (by decide)⟩

end Moraki
